import Mathlib

/-!
Verification of the pipe head-loss calculator (`losses_calculator`).

The Python source is shallowly embedded: floats become real numbers,
`raise ValueError(msg)` becomes `Except.error msg`, and a function body
that can raise becomes a chain of `match`es on `Except` values, mirroring
the source control flow statement by statement.

Embedded modules:
  * `app/core/correlations.py`  — friction-factor correlations
  * `app/core/local_losses.py`  — elbow K-coefficient table
  * `app/geometry/pipe_geometries.py` — `PipeSegment` and its validation
  * `app/services/friction_service.py` — head-loss computations
  * `app/cli/main_cli.py` (`_handle_pipe_with_elbow_case`) — the compound
    pipe-plus-elbow composition (its arithmetic, prompts and printing aside)
-/

open Real

/-- `friction_factor_laminar` from `correlations.py`: `f = 64 / Re`,
guarded by `Re > 0`. -/
noncomputable def friction_factor_laminar (Re : ℝ) : Except String ℝ :=
  if Re ≤ 0 then .error "Re debe ser > 0 para calcular el factor de fricción."
  else .ok (64 / Re)

/-- `friction_factor_blasius` from `correlations.py`:
`f = 0.3164 * Re ** (-0.25)`, guarded by `Re > 0`.  The Python float power
on a positive base is real `rpow`. -/
noncomputable def friction_factor_blasius (Re : ℝ) : Except String ℝ :=
  if Re ≤ 0 then .error "Re debe ser > 0 para calcular el factor de fricción."
  else .ok (0.3164 * Re ^ (-0.25 : ℝ))

/-- `friction_factor_haaland` from `correlations.py`.  After the guards the
base of `** 1.11` is nonnegative, so the Python power is real `rpow`.  The
final `1.0 / (inv_sqrt_f ** 2)` raises `ZeroDivisionError` in Python when
`inv_sqrt_f` is zero (the log argument equal to 1); that implicit failure
is modelled as an explicit error branch. -/
noncomputable def friction_factor_haaland (Re diameter_m roughness_m : ℝ) :
    Except String ℝ :=
  if Re ≤ 0 then .error "Re debe ser > 0 para calcular el factor de fricción."
  else if diameter_m ≤ 0 then .error "El diámetro debe ser > 0."
  else if roughness_m < 0 then .error "La rugosidad no puede ser negativa."
  else
    let eps_over_D := if 0 < diameter_m then roughness_m / diameter_m else 0
    let term := (eps_over_D / 3.7) ^ (1.11 : ℝ) + 6.9 / Re
    if term ≤ 0 then
      .error "El término dentro del logaritmo de Haaland debe ser positivo."
    else
      let inv_sqrt_f := -1.8 * Real.logb 10 term
      if inv_sqrt_f ^ 2 = 0 then .error "float division by zero"
      else .ok (1 / inv_sqrt_f ^ 2)

/-- `classify_regime` from `correlations.py` (the source's literal Spanish
labels). -/
noncomputable def classify_regime (Re : ℝ) : String :=
  if Re < 2000 then "laminar"
  else if Re ≤ 4000 then "transicional"
  else "turbulento"

/-- The turbulent endpoint used by the transitional branch of
`friction_factor` (`correlations.py` lines 106–109): Blasius at `Re = 4000`
when `method == "blasius"`, otherwise Haaland at `Re = 4000`. -/
noncomputable def transitional_turbulent_endpoint (method : String)
    (diameter_m roughness_m : ℝ) : Except String ℝ :=
  if method = "blasius" then friction_factor_blasius 4000
  else friction_factor_haaland 4000 diameter_m roughness_m

/-- `friction_factor` from `correlations.py`: laminar below 2000, selected
turbulent correlation above 4000 (unknown method is an error there), and a
linear interpolation on `[2000, 4000]` between the laminar value at the
actual `Re` and the turbulent endpoint at `Re = 4000`. -/
noncomputable def friction_factor (Re diameter_m roughness_m : ℝ)
    (method : String) : Except String ℝ :=
  if Re ≤ 0 then .error "Re debe ser > 0 para calcular el factor de fricción."
  else if Re < 2000 then friction_factor_laminar Re
  else if 4000 < Re then
    if method = "blasius" then friction_factor_blasius Re
    else if method = "haaland" then
      friction_factor_haaland Re diameter_m roughness_m
    else .error ("Método de correlación no reconocido: " ++ method)
  else
    match friction_factor_laminar Re with
    | .error e => .error e
    | .ok f_lam =>
      match transitional_turbulent_endpoint method diameter_m roughness_m with
      | .error e => .error e
      | .ok f_turb_4000 =>
        let w := (Re - 2000) / 2000
        .ok ((1 - w) * f_lam + w * f_turb_4000)

/-- `PipeSegment` from `pipe_geometries.py` (plain data; the constructor
validation is `mkPipeSegment` below). -/
structure PipeSegment where
  length_m : ℝ
  diameter_m : ℝ
  roughness_m : ℝ
  name : String := ""

/-- The `__post_init__` validation of `PipeSegment`. -/
noncomputable def mkPipeSegment (length_m diameter_m roughness_m : ℝ)
    (name : String := "") : Except String PipeSegment :=
  if length_m ≤ 0 then .error "La longitud del tramo debe ser > 0."
  else if diameter_m ≤ 0 then .error "El diámetro del tramo debe ser > 0."
  else if roughness_m < 0 then
    .error "La rugosidad del tramo no puede ser negativa."
  else .ok { length_m := length_m, diameter_m := diameter_m,
             roughness_m := roughness_m, name := name }

/-- The per-segment result dictionary of
`compute_single_segment_head_loss`. -/
structure SegmentResult where
  area_m2 : ℝ
  velocity_ms : ℝ
  reynolds : ℝ
  regime : String
  friction_factor : ℝ
  hf_m : ℝ
  delta_p_pa : ℝ
  delta_p_bar : ℝ

/-- `compute_area` from `friction_service.py`: `π D² / 4`. -/
noncomputable def compute_area (diameter_m : ℝ) : ℝ :=
  Real.pi * diameter_m ^ 2 / 4

/-- `compute_velocity` from `friction_service.py`, guarded by `area > 0`. -/
noncomputable def compute_velocity (q_m3s area_m2 : ℝ) : Except String ℝ :=
  if area_m2 ≤ 0 then .error "El área debe ser > 0."
  else .ok (q_m3s / area_m2)

/-- `compute_reynolds` from `friction_service.py`:
`Re = rho * v * D / mu`, with the source's guards in source order. -/
noncomputable def compute_reynolds (velocity_ms diameter_m rho mu : ℝ) :
    Except String ℝ :=
  if mu ≤ 0 ∨ rho ≤ 0 then .error "rho y mu deben ser > 0."
  else if diameter_m ≤ 0 then .error "El diámetro debe ser > 0."
  else .ok (rho * velocity_ms * diameter_m / mu)

/-- `compute_single_segment_head_loss` from `friction_service.py`. -/
noncomputable def compute_single_segment_head_loss (q_m3s : ℝ)
    (segment : PipeSegment) (rho mu g : ℝ) (method : String) :
    Except String SegmentResult :=
  if q_m3s ≤ 0 then .error "El caudal debe ser > 0."
  else if rho ≤ 0 ∨ mu ≤ 0 then .error "rho y mu deben ser > 0."
  else if g ≤ 0 then .error "g debe ser > 0."
  else
    match compute_velocity q_m3s (compute_area segment.diameter_m) with
    | .error e => .error e
    | .ok velocity_ms =>
      match compute_reynolds velocity_ms segment.diameter_m rho mu with
      | .error e => .error e
      | .ok reynolds =>
        match friction_factor reynolds segment.diameter_m
            segment.roughness_m method with
        | .error e => .error e
        | .ok f =>
          let head_velocity := velocity_ms ^ 2 / (2 * g)
          let hf_m := f * (segment.length_m / segment.diameter_m) *
            head_velocity
          let delta_p_pa := rho * g * hf_m
          .ok { area_m2 := compute_area segment.diameter_m
                velocity_ms := velocity_ms
                reynolds := reynolds
                regime := classify_regime reynolds
                friction_factor := f
                hf_m := hf_m
                delta_p_pa := delta_p_pa
                delta_p_bar := delta_p_pa / 1e5 }

/-- One entry of `segments_results`: the segment data copied next to the
per-segment result (the flattened dict `seg_info` of the source). -/
structure SegInfo where
  name : String
  length_m : ℝ
  diameter_m : ℝ
  roughness_m : ℝ
  res : SegmentResult

/-- The result dictionary of `compute_series_head_loss`. -/
structure SeriesResult where
  segments_results : List SegInfo
  hf_total_m : ℝ
  delta_p_total_pa : ℝ
  delta_p_total_bar : ℝ

/-- The accumulation loop of `compute_series_head_loss`: walks the segments
in order, adding `hf_m` and `delta_p_pa` into the running totals and
appending each segment's flattened info record. -/
noncomputable def series_loop (q_m3s rho mu g : ℝ) (method : String) :
    List PipeSegment → ℝ → ℝ → List SegInfo →
    Except String (ℝ × ℝ × List SegInfo)
  | [], total_hf, total_dp_pa, acc => .ok (total_hf, total_dp_pa, acc)
  | seg :: rest, total_hf, total_dp_pa, acc =>
    match compute_single_segment_head_loss q_m3s seg rho mu g method with
    | .error e => .error e
    | .ok res =>
      series_loop q_m3s rho mu g method rest (total_hf + res.hf_m)
        (total_dp_pa + res.delta_p_pa)
        (acc ++ [{ name := seg.name, length_m := seg.length_m,
                   diameter_m := seg.diameter_m,
                   roughness_m := seg.roughness_m, res := res }])

/-- `compute_series_head_loss` from `friction_service.py`: guards against an
empty list, runs the accumulation loop from zero totals, and derives the
bar total from the Pa total. -/
noncomputable def compute_series_head_loss (q_m3s : ℝ)
    (segments : List PipeSegment) (rho mu g : ℝ) (method : String) :
    Except String SeriesResult :=
  if segments.isEmpty then
    .error "Debe proporcionar al menos un tramo de tubería."
  else
    match series_loop q_m3s rho mu g method segments 0 0 [] with
    | .error e => .error e
    | .ok st =>
      .ok { segments_results := st.2.2, hf_total_m := st.1,
            delta_p_total_pa := st.2.1, delta_p_total_bar := st.2.1 / 1e5 }

/-- The `ELBOWS` table from `local_losses.py`: code ↦ (K, label). -/
noncomputable def ELBOWS : List (String × ℝ × String) :=
  [("elbow_90_SR", 0.75, "Codo 90° SR (≈1D, estándar)"),
   ("elbow_90_LR", 0.25, "Codo 90° LR (≈1,5D, radio largo)"),
   ("elbow_45_SR", 0.35, "Codo 45° SR (≈1D, estándar)"),
   ("elbow_45_LR", 0.20, "Codo 45° LR (≈1,5D, radio largo)")]

/-- `get_elbow_k` from `local_losses.py`: table lookup, unknown code is an
error. -/
noncomputable def get_elbow_k (code : String) : Except String ℝ :=
  match ELBOWS.lookup code with
  | some v => .ok v.1
  | none => .error ("Tipo de codo desconocido: " ++ code)

/-- `get_elbow_label` from `local_losses.py`. -/
noncomputable def get_elbow_label (code : String) : Except String String :=
  match ELBOWS.lookup code with
  | some v => .ok v.2
  | none => .error ("Tipo de codo desconocido: " ++ code)

/-- The result record printed by `_handle_pipe_with_elbow_case`. -/
structure ElbowCaseResult where
  fric : SegmentResult
  hf_elbow_m : ℝ
  delta_p_elbow_pa : ℝ
  delta_p_elbow_bar : ℝ
  hf_total_m : ℝ
  delta_p_total_pa : ℝ
  delta_p_total_bar : ℝ

/-- The arithmetic of `_handle_pipe_with_elbow_case` (`main_cli.py`): one
straight segment of length `L1 + L2` at the reference diameter, friction
loss via `compute_single_segment_head_loss`, and the elbow loss
`K · v²/(2g)` added on top.  Prompting and printing are elided; the chosen
elbow code stands in for `_select_elbow_type`. -/
noncomputable def handle_pipe_with_elbow_case (q_m3s ref_diameter_m : ℝ)
    (method : String) (rho mu g L1 L2 roughness_m : ℝ) (code : String) :
    Except String ElbowCaseResult :=
  match ELBOWS.lookup code with
  | none => .error ("Tipo de codo desconocido: " ++ code)
  | some kl =>
    let K := kl.1
    let total_length := L1 + L2
    match mkPipeSegment total_length ref_diameter_m roughness_m
        ("Tubería con " ++ kl.2) with
    | .error e => .error e
    | .ok segment =>
      match compute_single_segment_head_loss q_m3s segment rho mu g
          method with
      | .error e => .error e
      | .ok fric =>
        let v := fric.velocity_ms
        let head_velocity := v ^ 2 / (2 * g)
        let hf_elbow := K * head_velocity
        let delta_p_elbow_pa := rho * g * hf_elbow
        .ok { fric := fric
              hf_elbow_m := hf_elbow
              delta_p_elbow_pa := delta_p_elbow_pa
              delta_p_elbow_bar := delta_p_elbow_pa / 1e5
              hf_total_m := fric.hf_m + hf_elbow
              delta_p_total_pa := fric.delta_p_pa + delta_p_elbow_pa
              delta_p_total_bar := (fric.delta_p_pa + delta_p_elbow_pa) / 1e5 }

/-- C1: in the laminar band the friction factor is exactly `64 / Re`,
whatever the diameter, roughness and method arguments are. -/
theorem c1_laminar_regime (Re diameter_m roughness_m : ℝ) (method : String)
    (h0 : 0 < Re) (h2 : Re < 2000) :
    friction_factor Re diameter_m roughness_m method = .ok (64 / Re) := by
  unfold friction_factor friction_factor_laminar
  rw [if_neg (not_le.mpr h0), if_pos h2, if_neg (not_le.mpr h0)]

/-- Witness for C1 at `Re = 100`. -/
theorem c1_laminar_regime_witness :
    (0 : ℝ) < 100 ∧ (100 : ℝ) < 2000 ∧
      friction_factor 100 1 0 "foo" = .ok (64 / 100) :=
  ⟨by norm_num, by norm_num,
    c1_laminar_regime 100 1 0 "foo" (by norm_num) (by norm_num)⟩

/-- The Haaland log argument, under the function's guards. -/
lemma haaland_term_pos (Re D eps : ℝ) (hRe : 0 < Re) (hD : 0 < D)
    (heps : 0 ≤ eps) :
    0 < ((eps / D) / 3.7) ^ (1.11 : ℝ) + 6.9 / Re :=
  add_pos_of_nonneg_of_pos (Real.rpow_nonneg (by positivity) _) (by positivity)

/-- Evaluation of `friction_factor_haaland` when the logarithm of the term
is nonzero (so the final division succeeds). -/
lemma friction_factor_haaland_ok (Re D eps : ℝ) (hRe : 0 < Re) (hD : 0 < D)
    (heps : 0 ≤ eps)
    (hlb : Real.logb 10 (((eps / D) / 3.7) ^ (1.11 : ℝ) + 6.9 / Re) ≠ 0) :
    friction_factor_haaland Re D eps =
      .ok (1 / (-1.8 *
        Real.logb 10 (((eps / D) / 3.7) ^ (1.11 : ℝ) + 6.9 / Re)) ^ 2) := by
  have hterm := haaland_term_pos Re D eps hRe hD heps
  unfold friction_factor_haaland
  rw [if_neg (not_le.mpr hRe), if_neg (not_le.mpr hD),
    if_neg (not_lt.mpr heps)]
  simp only [if_pos hD]
  rw [if_neg (not_le.mpr hterm), if_neg]
  intro hzero
  have h1 : (-1.8 : ℝ) *
      Real.logb 10 (((eps / D) / 3.7) ^ (1.11 : ℝ) + 6.9 / Re) = 0 :=
    pow_eq_zero_iff two_ne_zero |>.mp hzero
  rcases mul_eq_zero.mp h1 with h | h
  · norm_num at h
  · exact hlb h

/-- Evaluation of `friction_factor` in the transitional band, given that the
turbulent endpoint evaluates successfully. -/
lemma friction_factor_transitional (Re D eps : ℝ) (m : String) (ft : ℝ)
    (h1 : 2000 ≤ Re) (h2 : Re ≤ 4000)
    (hok : transitional_turbulent_endpoint m D eps = .ok ft) :
    friction_factor Re D eps m =
      .ok ((1 - (Re - 2000) / 2000) * (64 / Re) + (Re - 2000) / 2000 * ft) := by
  have hpos : (0 : ℝ) < Re := by linarith
  unfold friction_factor friction_factor_laminar
  rw [if_neg (not_le.mpr hpos), if_neg (not_lt.mpr h1),
    if_neg (not_lt.mpr h2), if_neg (not_le.mpr hpos), hok]

/-- C2: on `2000 ≤ Re ≤ 4000` the friction factor is the linear
interpolation between the laminar value at the actual `Re` and the selected
turbulent correlation at `Re = 4000`; in particular it is `64/2000` at
`Re = 2000` and the turbulent endpoint value at `Re = 4000`. -/
theorem c2_transitional_interpolation (Re D eps : ℝ) (m : String) (ft : ℝ)
    (h1 : 2000 ≤ Re) (h2 : Re ≤ 4000)
    (hok : transitional_turbulent_endpoint m D eps = .ok ft) :
    friction_factor Re D eps m =
      .ok ((1 - (Re - 2000) / 2000) * (64 / Re) + (Re - 2000) / 2000 * ft) ∧
    (Re = 2000 → friction_factor Re D eps m = .ok (64 / 2000)) ∧
    (Re = 4000 → friction_factor Re D eps m = .ok ft) := by
  refine ⟨friction_factor_transitional Re D eps m ft h1 h2 hok, ?_, ?_⟩
  · rintro rfl
    rw [friction_factor_transitional 2000 D eps m ft h1 h2 hok]
    norm_num
  · rintro rfl
    rw [friction_factor_transitional 4000 D eps m ft h1 h2 hok]
    norm_num

/-- Witness for C2: Blasius method at `Re = 3000`, `D = 1`, `ε = 0`. -/
theorem c2_transitional_interpolation_witness :
    transitional_turbulent_endpoint "blasius" 1 0 =
      .ok (0.3164 * (4000 : ℝ) ^ (-0.25 : ℝ)) ∧
    friction_factor 3000 1 0 "blasius" =
      .ok ((1 - (3000 - 2000) / 2000) * (64 / 3000) +
        (3000 - 2000) / 2000 * (0.3164 * (4000 : ℝ) ^ (-0.25 : ℝ))) := by
  have hok : transitional_turbulent_endpoint "blasius" 1 0 =
      .ok (0.3164 * (4000 : ℝ) ^ (-0.25 : ℝ)) := by
    unfold transitional_turbulent_endpoint friction_factor_blasius
    rw [if_pos rfl, if_neg (by norm_num)]
  exact ⟨hok, (c2_transitional_interpolation 3000 1 0 "blasius" _
    (by norm_num) (by norm_num) hok).1⟩

/-- C4 (amended): an unknown correlation method fails with the
unknown-method error in the strictly turbulent branch `Re > 4000`. -/
theorem c4_unknown_method_turbulent (Re D eps : ℝ) (m : String)
    (hm1 : m ≠ "blasius") (hm2 : m ≠ "haaland") (h : 4000 < Re) :
    friction_factor Re D eps m =
      .error ("Método de correlación no reconocido: " ++ m) := by
  unfold friction_factor
  rw [if_neg (not_le.mpr (by linarith : (0 : ℝ) < Re)),
    if_neg (not_lt.mpr (by linarith : (2000 : ℝ) ≤ Re)), if_pos h,
    if_neg hm1, if_neg hm2]

/-- Witness for C4 at `Re = 5000`, method `"foo"`. -/
theorem c4_unknown_method_turbulent_witness :
    friction_factor 5000 1 0 "foo" =
      .error ("Método de correlación no reconocido: " ++ "foo") :=
  c4_unknown_method_turbulent 5000 1 0 "foo" (by decide) (by decide)
    (by norm_num)

/-- Counterexample for C4 as stated: in the transitional band an unknown
method does not fail — at `Re = 3000`, `D = 1`, `ε = 0`, method `"foo"`,
`friction_factor` returns the Haaland-endpoint interpolation value. -/
theorem c4_counterexample :
    friction_factor 3000 1 0 "foo" =
      .ok ((1 - (3000 - 2000) / 2000) * (64 / 3000) +
        (3000 - 2000) / 2000 *
          (1 / (-1.8 * Real.logb 10 (((0 / 1) / 3.7) ^ (1.11 : ℝ) +
            6.9 / 4000)) ^ 2)) ∧
    friction_factor 3000 1 0 "foo" ≠
      .error ("Método de correlación no reconocido: " ++ "foo") := by
  have hterm : ((0 / 1 : ℝ) / 3.7) ^ (1.11 : ℝ) + 6.9 / 4000 = 6.9 / 4000 := by
    rw [show ((0 / 1 : ℝ) / 3.7) = 0 by norm_num,
      Real.zero_rpow (by norm_num : (1.11 : ℝ) ≠ 0)]
    ring
  have hlb : Real.logb 10 (((0 / 1 : ℝ) / 3.7) ^ (1.11 : ℝ) + 6.9 / 4000) ≠
      0 := by
    rw [hterm]
    exact ne_of_lt (Real.logb_neg (by norm_num) (by norm_num) (by norm_num))
  have hok : transitional_turbulent_endpoint "foo" 1 0 =
      .ok (1 / (-1.8 * Real.logb 10 (((0 / 1) / 3.7) ^ (1.11 : ℝ) +
        6.9 / 4000)) ^ 2) := by
    unfold transitional_turbulent_endpoint
    rw [if_neg (by decide : ¬("foo" = "blasius"))]
    exact friction_factor_haaland_ok 4000 1 0 (by norm_num) (by norm_num)
      le_rfl hlb
  have h := friction_factor_transitional 3000 1 0 "foo" _
    (by norm_num) (by norm_num) hok
  exact ⟨h, by rw [h]; simp⟩

/-- C8: for `Re > 0`, `D > 0`, `ε ≥ 0` the Haaland log argument is strictly
positive, so the non-positive-log-argument error branch is unreachable. -/
theorem c8_haaland_log_argument_positive (Re D eps : ℝ) (hRe : 0 < Re)
    (hD : 0 < D) (heps : 0 ≤ eps) :
    0 < ((eps / D) / 3.7) ^ (1.11 : ℝ) + 6.9 / Re ∧
    friction_factor_haaland Re D eps ≠
      .error "El término dentro del logaritmo de Haaland debe ser positivo." := by
  have hterm := haaland_term_pos Re D eps hRe hD heps
  refine ⟨hterm, ?_⟩
  unfold friction_factor_haaland
  rw [if_neg (not_le.mpr hRe), if_neg (not_le.mpr hD),
    if_neg (not_lt.mpr heps)]
  simp only [if_pos hD]
  rw [if_neg (not_le.mpr hterm)]
  split
  · simp
  · simp

/-- Witness for C8 at `Re = 1`, `D = 1`, `ε = 0`. -/
theorem c8_haaland_log_argument_positive_witness :
    0 < ((0 / 1 : ℝ) / 3.7) ^ (1.11 : ℝ) + 6.9 / 1 ∧
    friction_factor_haaland 1 1 0 ≠
      .error "El término dentro del logaritmo de Haaland debe ser positivo." :=
  c8_haaland_log_argument_positive 1 1 0 (by norm_num) (by norm_num) le_rfl

/-- C10: in the transitional band every method other than `"blasius"` —
including unknown methods — produces exactly the same outcome as
`"haaland"`. -/
theorem c10_transitional_non_blasius_is_haaland (Re D eps : ℝ) (m : String)
    (h1 : 2000 ≤ Re) (h2 : Re ≤ 4000) (hm : m ≠ "blasius") :
    friction_factor Re D eps m = friction_factor Re D eps "haaland" := by
  have hpos : (0 : ℝ) < Re := by linarith
  have hend : transitional_turbulent_endpoint m D eps =
      transitional_turbulent_endpoint "haaland" D eps := by
    unfold transitional_turbulent_endpoint
    rw [if_neg hm, if_neg (by decide : ¬("haaland" = "blasius"))]
  unfold friction_factor
  rw [if_neg (not_le.mpr hpos), if_neg (not_lt.mpr h1),
    if_neg (not_lt.mpr h2), hend]
  rw [if_neg (not_le.mpr hpos), if_neg (not_lt.mpr h1),
    if_neg (not_lt.mpr h2)]

/-- Witness for C10 at `Re = 3000`, method `"foo"`. -/
theorem c10_transitional_non_blasius_is_haaland_witness :
    friction_factor 3000 1 0 "foo" = friction_factor 3000 1 0 "haaland" :=
  c10_transitional_non_blasius_is_haaland 3000 1 0 "foo" (by norm_num)
    (by norm_num) (by decide)

/-- Inversion of a successful `friction_factor_laminar`. -/
lemma friction_factor_laminar_ok (Re f : ℝ)
    (h : friction_factor_laminar Re = .ok f) : 0 < Re ∧ f = 64 / Re := by
  unfold friction_factor_laminar at h
  by_cases h1 : Re ≤ 0
  · rw [if_pos h1] at h; exact Except.noConfusion h
  · rw [if_neg h1] at h
    exact ⟨not_le.mp h1, (Except.ok.inj h).symm⟩

/-- Inversion of a successful `friction_factor_blasius`. -/
lemma friction_factor_blasius_ok (Re f : ℝ)
    (h : friction_factor_blasius Re = .ok f) :
    0 < Re ∧ f = 0.3164 * Re ^ (-0.25 : ℝ) := by
  unfold friction_factor_blasius at h
  by_cases h1 : Re ≤ 0
  · rw [if_pos h1] at h; exact Except.noConfusion h
  · rw [if_neg h1] at h
    exact ⟨not_le.mp h1, (Except.ok.inj h).symm⟩

/-- Any value returned by `friction_factor_haaland` is strictly positive. -/
lemma friction_factor_haaland_pos (Re D eps f : ℝ)
    (h : friction_factor_haaland Re D eps = .ok f) : 0 < f := by
  simp only [friction_factor_haaland] at h
  by_cases h1 : Re ≤ 0
  · rw [if_pos h1] at h; exact Except.noConfusion h
  rw [if_neg h1] at h
  by_cases h2 : D ≤ 0
  · rw [if_pos h2] at h; exact Except.noConfusion h
  rw [if_neg h2] at h
  by_cases h3 : eps < 0
  · rw [if_pos h3] at h; exact Except.noConfusion h
  rw [if_neg h3, if_pos (not_le.mp h2)] at h
  by_cases h5 : (eps / D / 3.7) ^ (1.11 : ℝ) + 6.9 / Re ≤ 0
  · rw [if_pos h5] at h; exact Except.noConfusion h
  rw [if_neg h5] at h
  by_cases h6 : (-1.8 * Real.logb 10
      ((eps / D / 3.7) ^ (1.11 : ℝ) + 6.9 / Re)) ^ 2 = 0
  · rw [if_pos h6] at h; exact Except.noConfusion h
  rw [if_neg h6] at h
  have hsq : 0 < (-1.8 * Real.logb 10
      ((eps / D / 3.7) ^ (1.11 : ℝ) + 6.9 / Re)) ^ 2 :=
    lt_of_le_of_ne (sq_nonneg _) (Ne.symm h6)
  have hf : f = 1 / (-1.8 * Real.logb 10
      ((eps / D / 3.7) ^ (1.11 : ℝ) + 6.9 / Re)) ^ 2 :=
    (Except.ok.inj h).symm
  rw [hf]
  exact div_pos one_pos hsq

/-- Any value returned by the transitional turbulent endpoint is strictly
positive. -/
lemma transitional_turbulent_endpoint_pos (m : String) (D eps ft : ℝ)
    (h : transitional_turbulent_endpoint m D eps = .ok ft) : 0 < ft := by
  unfold transitional_turbulent_endpoint at h
  by_cases hb : m = "blasius"
  · rw [if_pos hb] at h
    obtain ⟨hRe, rfl⟩ := friction_factor_blasius_ok _ _ h
    exact mul_pos (by norm_num) (Real.rpow_pos_of_pos hRe (-0.25 : ℝ))
  · rw [if_neg hb] at h
    exact friction_factor_haaland_pos _ _ _ _ h

/-- Any value returned by `friction_factor` is strictly positive. -/
lemma friction_factor_ok_pos (Re D eps : ℝ) (m : String) (f : ℝ)
    (h : friction_factor Re D eps m = .ok f) : 0 < f := by
  unfold friction_factor at h
  by_cases h0 : Re ≤ 0
  · rw [if_pos h0] at h; exact Except.noConfusion h
  rw [if_neg h0] at h
  by_cases h1 : Re < 2000
  · rw [if_pos h1] at h
    obtain ⟨hRe, rfl⟩ := friction_factor_laminar_ok _ _ h
    positivity
  rw [if_neg h1] at h
  by_cases h2 : 4000 < Re
  · rw [if_pos h2] at h
    by_cases hb : m = "blasius"
    · rw [if_pos hb] at h
      obtain ⟨hRe, rfl⟩ := friction_factor_blasius_ok _ _ h
      exact mul_pos (by norm_num) (Real.rpow_pos_of_pos hRe (-0.25 : ℝ))
    rw [if_neg hb] at h
    by_cases hh : m = "haaland"
    · rw [if_pos hh] at h
      exact friction_factor_haaland_pos _ _ _ _ h
    · rw [if_neg hh] at h; exact Except.noConfusion h
  rw [if_neg h2] at h
  rcases hl : friction_factor_laminar Re with e | fl
  · rw [hl] at h; exact Except.noConfusion h
  rw [hl] at h
  rcases ht : transitional_turbulent_endpoint m D eps with e | ft
  · rw [ht] at h; exact Except.noConfusion h
  rw [ht] at h
  have hf : (1 - (Re - 2000) / 2000) * fl + (Re - 2000) / 2000 * ft = f :=
    Except.ok.inj h
  obtain ⟨hRe, rfl⟩ := friction_factor_laminar_ok _ _ hl
  have hft := transitional_turbulent_endpoint_pos _ _ _ _ ht
  have hfl : 0 < 64 / Re := by positivity
  have hw0 : 0 ≤ (Re - 2000) / 2000 :=
    div_nonneg (by linarith [not_lt.mp h1]) (by norm_num)
  have hw1 : (Re - 2000) / 2000 ≤ 1 := by
    rw [div_le_one (by norm_num : (0:ℝ) < 2000)]
    linarith [not_lt.mp h2]
  rw [← hf]
  rcases eq_or_lt_of_le hw1 with heq | hlt
  · rw [heq]; simpa using hft
  · have hp1 : 0 < (1 - (Re - 2000) / 2000) * (64 / Re) :=
      mul_pos (by linarith) hfl
    have hp2 : 0 ≤ (Re - 2000) / 2000 * ft := mul_nonneg hw0 hft.le
    linarith

/-- Inversion of a successful `compute_velocity`. -/
lemma compute_velocity_ok (q a v : ℝ) (h : compute_velocity q a = .ok v) :
    0 < a ∧ v = q / a := by
  unfold compute_velocity at h
  by_cases h1 : a ≤ 0
  · rw [if_pos h1] at h; exact Except.noConfusion h
  · rw [if_neg h1] at h
    exact ⟨not_le.mp h1, (Except.ok.inj h).symm⟩

/-- Inversion of a successful `compute_reynolds`. -/
lemma compute_reynolds_ok (v D rho mu re : ℝ)
    (h : compute_reynolds v D rho mu = .ok re) :
    0 < rho ∧ 0 < mu ∧ 0 < D ∧ re = rho * v * D / mu := by
  unfold compute_reynolds at h
  by_cases h1 : mu ≤ 0 ∨ rho ≤ 0
  · rw [if_pos h1] at h; exact Except.noConfusion h
  rw [if_neg h1] at h
  by_cases h2 : D ≤ 0
  · rw [if_pos h2] at h; exact Except.noConfusion h
  rw [if_neg h2] at h
  push_neg at h1
  exact ⟨h1.2, h1.1, not_le.mp h2, (Except.ok.inj h).symm⟩

/-- C7: each violated fluid-property precondition makes
`compute_single_segment_head_loss` fail with the error naming the offending
quantity, and an empty segment list makes `compute_series_head_loss` fail
for every choice of the remaining inputs, valid or not; the `Except` result
carries no partial data. -/
theorem c7_invalid_input_errors (q rho mu g : ℝ) (seg : PipeSegment)
    (m : String) :
    (q ≤ 0 ∨ rho ≤ 0 ∨ mu ≤ 0 ∨ g ≤ 0 →
      compute_single_segment_head_loss q seg rho mu g m =
        .error (if q ≤ 0 then "El caudal debe ser > 0."
          else if rho ≤ 0 ∨ mu ≤ 0 then "rho y mu deben ser > 0."
          else "g debe ser > 0.")) ∧
    compute_series_head_loss q [] rho mu g m =
      .error "Debe proporcionar al menos un tramo de tubería." := by
  constructor
  · intro h
    unfold compute_single_segment_head_loss
    by_cases h1 : q ≤ 0
    · rw [if_pos h1, if_pos h1]
    · rw [if_neg h1, if_neg h1]
      by_cases h2 : rho ≤ 0 ∨ mu ≤ 0
      · rw [if_pos h2, if_pos h2]
      · rw [if_neg h2, if_neg h2]
        have h3 : g ≤ 0 := by tauto
        rw [if_pos h3]
  · rfl

/-- Witness for C7: the flow-rate error at `q = -1`, and the empty-series
error on fully valid fluid parameters. -/
theorem c7_invalid_input_errors_witness :
    compute_single_segment_head_loss (-1) ⟨1, 1, 0, ""⟩ 1 1 1 "haaland" =
      .error "El caudal debe ser > 0." ∧
    compute_series_head_loss 1 [] 1 1 1 "haaland" =
      .error "Debe proporcionar al menos un tramo de tubería." := by
  have h := c7_invalid_input_errors (-1) 1 1 1 ⟨1, 1, 0, ""⟩ "haaland"
  have hvalid := c7_invalid_input_errors 1 1 1 1 ⟨1, 1, 0, ""⟩ "haaland"
  refine ⟨?_, hvalid.2⟩
  rw [h.1 (.inl (by norm_num)), if_pos (by norm_num : (-1 : ℝ) ≤ 0)]

/-- Full inversion of a successful `compute_single_segment_head_loss`: the
guards held and every result field is the source formula evaluated at the
derived quantities. -/
lemma compute_single_ok_inv (q rho mu g : ℝ) (seg : PipeSegment) (m : String)
    (r : SegmentResult)
    (h : compute_single_segment_head_loss q seg rho mu g m = .ok r) :
    0 < q ∧ 0 < rho ∧ 0 < mu ∧ 0 < g ∧ 0 < seg.diameter_m ∧
    0 < compute_area seg.diameter_m ∧
    r.area_m2 = compute_area seg.diameter_m ∧
    r.velocity_ms = q / compute_area seg.diameter_m ∧
    r.reynolds = rho * r.velocity_ms * seg.diameter_m / mu ∧
    r.regime = classify_regime r.reynolds ∧
    friction_factor r.reynolds seg.diameter_m seg.roughness_m m =
      .ok r.friction_factor ∧
    r.hf_m = r.friction_factor * (seg.length_m / seg.diameter_m) *
      (r.velocity_ms ^ 2 / (2 * g)) ∧
    r.delta_p_pa = rho * g * r.hf_m ∧
    r.delta_p_bar = r.delta_p_pa / 1e5 := by
  unfold compute_single_segment_head_loss at h
  by_cases h1 : q ≤ 0
  · rw [if_pos h1] at h; exact Except.noConfusion h
  rw [if_neg h1] at h
  by_cases h2 : rho ≤ 0 ∨ mu ≤ 0
  · rw [if_pos h2] at h; exact Except.noConfusion h
  rw [if_neg h2] at h
  by_cases h3 : g ≤ 0
  · rw [if_pos h3] at h; exact Except.noConfusion h
  rw [if_neg h3] at h
  split at h
  · exact Except.noConfusion h
  rename_i v hv
  split at h
  · exact Except.noConfusion h
  rename_i re hre
  split at h
  · exact Except.noConfusion h
  rename_i f hf
  obtain ⟨harea, hveq⟩ := compute_velocity_ok _ _ _ hv
  obtain ⟨hrho, hmu, hD, hreeq⟩ := compute_reynolds_ok _ _ _ _ _ hre
  have hrec : ({ area_m2 := compute_area seg.diameter_m
                 velocity_ms := v
                 reynolds := re
                 regime := classify_regime re
                 friction_factor := f
                 hf_m := f * (seg.length_m / seg.diameter_m) *
                   (v ^ 2 / (2 * g))
                 delta_p_pa := rho * g * (f *
                   (seg.length_m / seg.diameter_m) * (v ^ 2 / (2 * g)))
                 delta_p_bar := rho * g * (f *
                   (seg.length_m / seg.diameter_m) * (v ^ 2 / (2 * g))) /
                   1e5 } : SegmentResult) = r := Except.ok.inj h
  subst hrec
  refine ⟨not_le.mp h1, hrho, hmu, not_le.mp h3, hD, harea, rfl, hveq, ?_,
    rfl, hf, rfl, rfl, rfl⟩
  show re = rho * v * seg.diameter_m / mu
  exact hreeq

/-- Evaluation of `compute_single_segment_head_loss` on valid inputs, given
a successful friction-factor evaluation at the derived Reynolds number. -/
lemma compute_single_eval (q rho mu g : ℝ) (seg : PipeSegment) (m : String)
    (f : ℝ) (hq : 0 < q) (hrho : 0 < rho) (hmu : 0 < mu) (hg : 0 < g)
    (hD : 0 < seg.diameter_m)
    (hf : friction_factor
      (rho * (q / compute_area seg.diameter_m) * seg.diameter_m / mu)
      seg.diameter_m seg.roughness_m m = .ok f) :
    compute_single_segment_head_loss q seg rho mu g m = .ok
      { area_m2 := compute_area seg.diameter_m
        velocity_ms := q / compute_area seg.diameter_m
        reynolds := rho * (q / compute_area seg.diameter_m) *
          seg.diameter_m / mu
        regime := classify_regime (rho * (q / compute_area seg.diameter_m) *
          seg.diameter_m / mu)
        friction_factor := f
        hf_m := f * (seg.length_m / seg.diameter_m) *
          ((q / compute_area seg.diameter_m) ^ 2 / (2 * g))
        delta_p_pa := rho * g * (f * (seg.length_m / seg.diameter_m) *
          ((q / compute_area seg.diameter_m) ^ 2 / (2 * g)))
        delta_p_bar := rho * g * (f * (seg.length_m / seg.diameter_m) *
          ((q / compute_area seg.diameter_m) ^ 2 / (2 * g))) / 1e5 } := by
  have harea : 0 < compute_area seg.diameter_m := by
    unfold compute_area; positivity
  have hv : compute_velocity q (compute_area seg.diameter_m) =
      .ok (q / compute_area seg.diameter_m) := by
    unfold compute_velocity; rw [if_neg (not_le.mpr harea)]
  have hre : compute_reynolds (q / compute_area seg.diameter_m)
      seg.diameter_m rho mu =
      .ok (rho * (q / compute_area seg.diameter_m) * seg.diameter_m / mu) := by
    unfold compute_reynolds
    rw [if_neg (by push_neg; exact ⟨hmu, hrho⟩), if_neg (not_le.mpr hD)]
  unfold compute_single_segment_head_loss
  rw [if_neg (not_le.mpr hq), if_neg (by push_neg; exact ⟨hrho, hmu⟩),
    if_neg (not_le.mpr hg)]
  simp only [hv, hre, hf]

/-- C9: whenever `compute_single_segment_head_loss` succeeds on a segment of
positive length, every numeric result field is strictly positive. -/
theorem c9_result_fields_positive (q rho mu g : ℝ) (seg : PipeSegment)
    (m : String) (r : SegmentResult) (hL : 0 < seg.length_m)
    (h : compute_single_segment_head_loss q seg rho mu g m = .ok r) :
    0 < r.area_m2 ∧ 0 < r.velocity_ms ∧ 0 < r.reynolds ∧
    0 < r.friction_factor ∧ 0 < r.hf_m ∧ 0 < r.delta_p_pa ∧
    0 < r.delta_p_bar := by
  obtain ⟨hq, hrho, hmu, hg, hD, harea, ha, hv, hre, hreg, hf, hhf, hdp,
    hbar⟩ := compute_single_ok_inv q rho mu g seg m r h
  have hvpos : 0 < r.velocity_ms := by rw [hv]; exact div_pos hq harea
  have hrepos : 0 < r.reynolds := by
    rw [hre]; positivity
  have hfpos : 0 < r.friction_factor :=
    friction_factor_ok_pos _ _ _ _ _ hf
  have hhfpos : 0 < r.hf_m := by
    rw [hhf]; positivity
  have hdppos : 0 < r.delta_p_pa := by rw [hdp]; positivity
  refine ⟨by rw [ha]; exact harea, hvpos, hrepos, hfpos, hhfpos, hdppos, ?_⟩
  rw [hbar]; positivity

/-- Closed-form result of the laminar witness scenario
`q = π, L = D = 1, ε = 0, rho = mu = g = 1`: velocity `4`, Reynolds `4`
(laminar), `f = 16`, `hf = 128` m, `Δp = 128` Pa. -/
noncomputable def lam_witness_res : SegmentResult :=
  { area_m2 := Real.pi / 4, velocity_ms := 4, reynolds := 4,
    regime := "laminar", friction_factor := 16, hf_m := 128,
    delta_p_pa := 128, delta_p_bar := 128 / 1e5 }

/-- Evaluation of the laminar witness scenario (any segment name). -/
lemma lam_witness_eval (n : String) :
    compute_single_segment_head_loss Real.pi ⟨1, 1, 0, n⟩ 1 1 1 "haaland" =
      .ok lam_witness_res := by
  have hv4 : Real.pi / compute_area 1 = 4 := by
    unfold compute_area
    rw [div_eq_iff (by positivity)]
    ring
  have hre : (1 : ℝ) * (Real.pi / compute_area 1) * 1 / 1 = 4 := by
    rw [hv4]; norm_num
  have hf : friction_factor ((1 : ℝ) * (Real.pi / compute_area 1) * 1 / 1)
      1 0 "haaland" = .ok 16 := by
    rw [hre]
    have h4 : friction_factor 4 1 0 "haaland" = .ok (64 / 4) := by
      unfold friction_factor friction_factor_laminar
      rw [if_neg (by norm_num : ¬(4:ℝ) ≤ 0), if_pos (by norm_num),
        if_neg (by norm_num : ¬(4:ℝ) ≤ 0)]
    rw [h4]; norm_num
  have h := compute_single_eval Real.pi 1 1 1 ⟨1, 1, 0, n⟩ "haaland" 16
    Real.pi_pos one_pos one_pos one_pos (by norm_num) hf
  rw [h, Except.ok.injEq]
  dsimp only
  rw [hv4]
  unfold lam_witness_res
  rw [SegmentResult.mk.injEq]
  refine ⟨?_, by norm_num, by norm_num, ?_, rfl, by norm_num, by norm_num,
    by norm_num⟩
  · unfold compute_area; ring
  · unfold classify_regime
    rw [if_pos (by norm_num)]

/-- Witness for C9: the laminar scenario `q = π`, unit segment, unit fluid
constants. -/
theorem c9_result_fields_positive_witness :
    0 < (PipeSegment.mk 1 1 0 "").length_m ∧
    compute_single_segment_head_loss Real.pi ⟨1, 1, 0, ""⟩ 1 1 1 "haaland" =
      .ok lam_witness_res ∧
    (0 < lam_witness_res.area_m2 ∧ 0 < lam_witness_res.velocity_ms ∧
      0 < lam_witness_res.reynolds ∧ 0 < lam_witness_res.friction_factor ∧
      0 < lam_witness_res.hf_m ∧ 0 < lam_witness_res.delta_p_pa ∧
      0 < lam_witness_res.delta_p_bar) :=
  ⟨by norm_num, lam_witness_eval "",
    c9_result_fields_positive Real.pi 1 1 1 ⟨1, 1, 0, ""⟩ "haaland"
      lam_witness_res (by norm_num) (lam_witness_eval "")⟩

/-- The per-entry correspondence between an input segment and its
`segments_results` entry: the segment data is copied verbatim and the
nested result is the single-segment computation for that segment. -/
def seg_matches (q rho mu g : ℝ) (m : String)
    (seg : PipeSegment) (info : SegInfo) : Prop :=
  info.name = seg.name ∧ info.length_m = seg.length_m ∧
  info.diameter_m = seg.diameter_m ∧ info.roughness_m = seg.roughness_m ∧
  compute_single_segment_head_loss q seg rho mu g m = .ok info.res

/-- Invariant of the series accumulation loop: on success the totals are the
starting totals plus the sums over the newly appended entries, which
correspond one-to-one and in order to the remaining segments. -/
lemma series_loop_ok (q rho mu g : ℝ) (m : String) :
    ∀ (segs : List PipeSegment) (h0 d0 : ℝ) (acc : List SegInfo)
      (h d : ℝ) (infos : List SegInfo),
      series_loop q rho mu g m segs h0 d0 acc = .ok (h, d, infos) →
      ∃ news, infos = acc ++ news ∧
        h = h0 + (news.map (fun i => i.res.hf_m)).sum ∧
        d = d0 + (news.map (fun i => i.res.delta_p_pa)).sum ∧
        List.Forall₂ (seg_matches q rho mu g m) segs news := by
  intro segs
  induction segs with
  | nil =>
    intro h0 d0 acc h d infos hl
    simp only [series_loop, Except.ok.injEq, Prod.mk.injEq] at hl
    obtain ⟨rfl, rfl, rfl⟩ := hl
    exact ⟨[], by simp, by simp, by simp, List.Forall₂.nil⟩
  | cons seg rest ih =>
    intro h0 d0 acc h d infos hl
    simp only [series_loop] at hl
    split at hl
    · exact Except.noConfusion hl
    rename_i res hres
    obtain ⟨news, hinfos, hh, hd, hfa⟩ := ih _ _ _ _ _ _ hl
    refine ⟨{ name := seg.name, length_m := seg.length_m,
              diameter_m := seg.diameter_m, roughness_m := seg.roughness_m,
              res := res } :: news, ?_, ?_, ?_, ?_⟩
    · rw [hinfos, List.append_assoc, List.singleton_append]
    · rw [hh, List.map_cons, List.sum_cons]; ring
    · rw [hd, List.map_cons, List.sum_cons]; ring
    · exact List.Forall₂.cons ⟨rfl, rfl, rfl, rfl, hres⟩ hfa

/-- C3: a successful `compute_series_head_loss` yields one entry per input
segment in input order, totals equal to the per-segment sums, and a bar
total derived from the Pa total. -/
theorem c3_series_aggregation (q rho mu g : ℝ) (segs : List PipeSegment)
    (m : String) (out : SeriesResult)
    (h : compute_series_head_loss q segs rho mu g m = .ok out) :
    out.segments_results.length = segs.length ∧
    List.Forall₂ (seg_matches q rho mu g m) segs out.segments_results ∧
    out.hf_total_m = (out.segments_results.map (fun i => i.res.hf_m)).sum ∧
    out.delta_p_total_pa =
      (out.segments_results.map (fun i => i.res.delta_p_pa)).sum ∧
    out.delta_p_total_bar = out.delta_p_total_pa / 1e5 := by
  unfold compute_series_head_loss at h
  by_cases he : segs.isEmpty
  · rw [if_pos he] at h; exact Except.noConfusion h
  rw [if_neg he] at h
  split at h
  · exact Except.noConfusion h
  rename_i st hst
  have hrec : ({ segments_results := st.2.2
                 hf_total_m := st.1
                 delta_p_total_pa := st.2.1
                 delta_p_total_bar := st.2.1 / 1e5 } : SeriesResult) = out :=
    Except.ok.inj h
  subst hrec
  obtain ⟨news, hinfos, hh, hd, hfa⟩ :=
    series_loop_ok q rho mu g m segs 0 0 [] st.1 st.2.1 st.2.2 hst
  simp only [List.nil_append] at hinfos
  refine ⟨?_, ?_, ?_, ?_, rfl⟩
  · show st.2.2.length = segs.length
    rw [hinfos]
    exact (List.Forall₂.length_eq hfa).symm
  · show List.Forall₂ (seg_matches q rho mu g m) segs st.2.2
    rw [hinfos]
    exact hfa
  · show st.1 = (st.2.2.map (fun i => i.res.hf_m)).sum
    rw [hinfos, hh]
    ring
  · show st.2.1 = (st.2.2.map (fun i => i.res.delta_p_pa)).sum
    rw [hinfos, hd]
    ring

/-- Closed-form series result for the one-segment laminar witness. -/
noncomputable def c3_witness_out : SeriesResult :=
  { segments_results := [⟨"", 1, 1, 0, lam_witness_res⟩]
    hf_total_m := 128
    delta_p_total_pa := 128
    delta_p_total_bar := 128 / 1e5 }

/-- Evaluation of the one-segment laminar series witness. -/
lemma c3_witness_eval :
    compute_series_head_loss Real.pi [⟨1, 1, 0, ""⟩] 1 1 1 "haaland" =
      .ok c3_witness_out := by
  unfold compute_series_head_loss
  rw [if_neg (by simp)]
  have hloop : series_loop Real.pi 1 1 1 "haaland"
      [⟨1, 1, 0, ""⟩] 0 0 [] = .ok (0 + lam_witness_res.hf_m,
        0 + lam_witness_res.delta_p_pa,
        [] ++ [⟨"", 1, 1, 0, lam_witness_res⟩]) := by
    simp only [series_loop, lam_witness_eval]
  rw [hloop, Except.ok.injEq]
  unfold c3_witness_out lam_witness_res
  rw [SeriesResult.mk.injEq]
  refine ⟨by simp, by norm_num, by norm_num, by norm_num⟩

/-- Witness for C3 on the one-segment laminar series. -/
theorem c3_series_aggregation_witness :
    compute_series_head_loss Real.pi [⟨1, 1, 0, ""⟩] 1 1 1 "haaland" =
      .ok c3_witness_out ∧
    c3_witness_out.hf_total_m =
      (c3_witness_out.segments_results.map (fun i => i.res.hf_m)).sum ∧
    c3_witness_out.delta_p_total_pa =
      (c3_witness_out.segments_results.map (fun i => i.res.delta_p_pa)).sum ∧
    c3_witness_out.delta_p_total_bar =
      c3_witness_out.delta_p_total_pa / 1e5 ∧
    c3_witness_out.segments_results.length =
      ([⟨1, 1, 0, ""⟩] : List PipeSegment).length := by
  have h := c3_witness_eval
  have hc := c3_series_aggregation Real.pi 1 1 1 [⟨1, 1, 0, ""⟩] "haaland"
    c3_witness_out h
  exact ⟨h, hc.2.2.1, hc.2.2.2.1, hc.2.2.2.2, hc.1⟩

/-- Inversion of a successful `mkPipeSegment`: the constructed segment is
exactly the given data and the validation held. -/
lemma mkPipeSegment_ok (L D eps : ℝ) (n : String) (seg : PipeSegment)
    (h : mkPipeSegment L D eps n = .ok seg) :
    seg = ⟨L, D, eps, n⟩ ∧ 0 < L ∧ 0 < D ∧ 0 ≤ eps := by
  unfold mkPipeSegment at h
  by_cases h1 : L ≤ 0
  · rw [if_pos h1] at h; exact Except.noConfusion h
  rw [if_neg h1] at h
  by_cases h2 : D ≤ 0
  · rw [if_pos h2] at h; exact Except.noConfusion h
  rw [if_neg h2] at h
  by_cases h3 : eps < 0
  · rw [if_pos h3] at h; exact Except.noConfusion h
  rw [if_neg h3] at h
  exact ⟨(Except.ok.inj h).symm, not_le.mp h1, not_le.mp h2, not_lt.mp h3⟩

/-- C5: a successful elbow-case computation decomposes as the friction loss
of the single combined-length segment (computed by
`compute_single_segment_head_loss`) plus the independent fitting loss
`K·v²/(2g)`, with `K` taken from the elbow table; the reported friction
factor is the segment's own. -/
theorem c5_elbow_composition (q refD : ℝ) (m : String)
    (rho mu g L1 L2 eps : ℝ) (code : String) (out : ElbowCaseResult)
    (h : handle_pipe_with_elbow_case q refD m rho mu g L1 L2 eps code =
      .ok out) :
    ∃ K label, ELBOWS.lookup code = some (K, label) ∧
      compute_single_segment_head_loss q ⟨L1 + L2, refD, eps,
        "Tubería con " ++ label⟩ rho mu g m = .ok out.fric ∧
      out.hf_total_m = out.fric.hf_m +
        K * (out.fric.velocity_ms ^ 2 / (2 * g)) ∧
      out.delta_p_total_pa = out.fric.delta_p_pa +
        rho * g * (K * (out.fric.velocity_ms ^ 2 / (2 * g))) ∧
      out.delta_p_total_bar = out.delta_p_total_pa / 1e5 ∧
      Except.map (fun r => r.friction_factor)
          (compute_single_segment_head_loss q ⟨L1 + L2, refD, eps,
            "Tubería con " ++ label⟩ rho mu g m) =
        .ok out.fric.friction_factor := by
  unfold handle_pipe_with_elbow_case at h
  split at h
  · exact Except.noConfusion h
  rename_i kl hlk
  simp only [] at h
  split at h
  · exact Except.noConfusion h
  rename_i segment hmk
  split at h
  · exact Except.noConfusion h
  rename_i fric hfr
  obtain ⟨hseg, hL, hD, heps⟩ := mkPipeSegment_ok _ _ _ _ _ hmk
  subst hseg
  have hrec : ({ fric := fric
                 hf_elbow_m := kl.1 * (fric.velocity_ms ^ 2 / (2 * g))
                 delta_p_elbow_pa := rho * g *
                   (kl.1 * (fric.velocity_ms ^ 2 / (2 * g)))
                 delta_p_elbow_bar := rho * g *
                   (kl.1 * (fric.velocity_ms ^ 2 / (2 * g))) / 1e5
                 hf_total_m := fric.hf_m +
                   kl.1 * (fric.velocity_ms ^ 2 / (2 * g))
                 delta_p_total_pa := fric.delta_p_pa + rho * g *
                   (kl.1 * (fric.velocity_ms ^ 2 / (2 * g)))
                 delta_p_total_bar := (fric.delta_p_pa + rho * g *
                   (kl.1 * (fric.velocity_ms ^ 2 / (2 * g)))) / 1e5 } :
      ElbowCaseResult) = out := Except.ok.inj h
  subst hrec
  exact ⟨kl.1, kl.2, hlk, hfr, rfl, rfl, rfl, by rw [hfr]; rfl⟩

/-- Closed-form result of the elbow witness: the unit laminar scenario split
as `L1 = L2 = 0.5` around a `K = 0.75` elbow. -/
noncomputable def c5_witness_out : ElbowCaseResult :=
  { fric := lam_witness_res
    hf_elbow_m := 6
    delta_p_elbow_pa := 6
    delta_p_elbow_bar := 6 / 1e5
    hf_total_m := 134
    delta_p_total_pa := 134
    delta_p_total_bar := 134 / 1e5 }

/-- Evaluation of the elbow witness scenario. -/
lemma c5_witness_eval :
    handle_pipe_with_elbow_case Real.pi 1 "haaland" 1 1 1 0.5 0.5 0
      "elbow_90_SR" = .ok c5_witness_out := by
  have hlk : ELBOWS.lookup "elbow_90_SR" =
      some ((0.75 : ℝ), "Codo 90° SR (≈1D, estándar)") := by
    unfold ELBOWS
    rfl
  have hmk : mkPipeSegment ((0.5 : ℝ) + 0.5) 1 0
      ("Tubería con " ++ "Codo 90° SR (≈1D, estándar)") =
      .ok ⟨1, 1, 0, "Tubería con " ++ "Codo 90° SR (≈1D, estándar)"⟩ := by
    unfold mkPipeSegment
    rw [if_neg (by norm_num), if_neg (by norm_num), if_neg (by norm_num)]
    norm_num
  unfold handle_pipe_with_elbow_case
  rw [hlk]
  simp only [hmk, lam_witness_eval]
  rw [Except.ok.injEq]
  unfold c5_witness_out lam_witness_res
  rw [ElbowCaseResult.mk.injEq]
  norm_num

/-- Witness for C5 on the unit elbow scenario. -/
theorem c5_elbow_composition_witness :
    handle_pipe_with_elbow_case Real.pi 1 "haaland" 1 1 1 0.5 0.5 0
      "elbow_90_SR" = .ok c5_witness_out ∧
    (∃ K label, ELBOWS.lookup "elbow_90_SR" = some (K, label) ∧
      compute_single_segment_head_loss Real.pi ⟨0.5 + 0.5, 1, 0,
        "Tubería con " ++ label⟩ 1 1 1 "haaland" = .ok c5_witness_out.fric ∧
      c5_witness_out.hf_total_m = c5_witness_out.fric.hf_m +
        K * (c5_witness_out.fric.velocity_ms ^ 2 / (2 * 1)) ∧
      c5_witness_out.delta_p_total_pa = c5_witness_out.fric.delta_p_pa +
        1 * 1 * (K * (c5_witness_out.fric.velocity_ms ^ 2 / (2 * 1))) ∧
      c5_witness_out.delta_p_total_bar =
        c5_witness_out.delta_p_total_pa / 1e5 ∧
      Except.map (fun r => r.friction_factor)
          (compute_single_segment_head_loss Real.pi ⟨0.5 + 0.5, 1, 0,
            "Tubería con " ++ label⟩ 1 1 1 "haaland") =
        .ok c5_witness_out.fric.friction_factor) :=
  ⟨c5_witness_eval,
    c5_elbow_composition Real.pi 1 "haaland" 1 1 1 0.5 0.5 0 "elbow_90_SR"
      c5_witness_out c5_witness_eval⟩


/-- Common evaluation for the transitional scenario: with derived Reynolds
number 3000 and a successfully evaluated Haaland endpoint `fh` at
`Re = 4000`, `compute_single_segment_head_loss` succeeds, reports the
regime `"transicional"`, and its friction factor is the midpoint
interpolation between `64/3000` and `fh`. -/
lemma compute_single_transitional_3000 (q rho mu g L D eps : ℝ)
    (n : String) (fh : ℝ) (hq : 0 < q) (hrho : 0 < rho) (hmu : 0 < mu)
    (hg : 0 < g) (hD : 0 < D)
    (hre : rho * (q / compute_area D) * D / mu = 3000)
    (hfh : friction_factor_haaland 4000 D eps = .ok fh) :
    ∃ r, compute_single_segment_head_loss q ⟨L, D, eps, n⟩ rho mu g
        "haaland" = .ok r ∧
      r.regime = "transicional" ∧
      r.friction_factor = (1 - (3000 - 2000) / 2000) * (64 / 3000) +
        (3000 - 2000) / 2000 * fh := by
  have hend : transitional_turbulent_endpoint "haaland" D eps = .ok fh := by
    unfold transitional_turbulent_endpoint
    rw [if_neg (by decide : ¬("haaland" = "blasius"))]
    exact hfh
  have hff : friction_factor (rho * (q / compute_area D) * D / mu) D eps
      "haaland" = .ok ((1 - (3000 - 2000) / 2000) * (64 / 3000) +
        (3000 - 2000) / 2000 * fh) := by
    rw [hre]
    exact friction_factor_transitional 3000 D eps "haaland" _
      (by norm_num) (by norm_num) hend
  have heval := compute_single_eval q rho mu g ⟨L, D, eps, n⟩ "haaland" _
    hq hrho hmu hg hD hff
  refine ⟨_, heval, ?_, rfl⟩
  show classify_regime (rho * (q / compute_area D) * D / mu) =
    "transicional"
  rw [hre]
  unfold classify_regime
  rw [if_neg (by norm_num), if_pos (by norm_num)]

/-- The Haaland value at `Re = 4000` for a smooth unit pipe (`D = 1`,
`ε = 0`): the call succeeds with value `1/(-1.8·log10(6.9/4000))²`, which
lies strictly above the laminar value `64/3000`. -/
lemma haaland_unit_smooth_value :
    friction_factor_haaland 4000 1 0 =
      .ok (1 / (-1.8 * Real.logb 10 ((((0 : ℝ) / 1) / 3.7) ^ (1.11 : ℝ) +
        6.9 / 4000)) ^ 2) ∧
    64 / 3000 < 1 / (-1.8 * Real.logb 10 ((((0 : ℝ) / 1) / 3.7) ^
      (1.11 : ℝ) + 6.9 / 4000)) ^ 2 := by
  have hterm0 : (((0 : ℝ) / 1) / 3.7) ^ (1.11 : ℝ) + 6.9 / 4000 =
      6.9 / 4000 := by
    rw [show ((0 : ℝ) / 1) / 3.7 = 0 by norm_num,
      Real.zero_rpow (by norm_num : (1.11 : ℝ) ≠ 0)]
    ring
  have hlb_neg : Real.logb 10 ((6.9 : ℝ) / 4000) < 0 :=
    Real.logb_neg (by norm_num) (by norm_num) (by norm_num)
  have h10 : (10 : ℝ) ^ (-3 : ℝ) = 1 / 1000 := by
    rw [show (-3 : ℝ) = -((3 : ℕ) : ℝ) by norm_num,
      Real.rpow_neg (by norm_num), Real.rpow_natCast]
    norm_num
  have hLb_gt : -3 < Real.logb 10 ((6.9 : ℝ) / 4000) := by
    rw [show (-3 : ℝ) = Real.logb 10 ((10 : ℝ) ^ (-3 : ℝ)) from
      (Real.logb_rpow (by norm_num) (by norm_num)).symm]
    refine Real.logb_lt_logb (by norm_num) (by rw [h10]; norm_num) ?_
    rw [h10]
    norm_num
  have hinv_pos : 0 < -1.8 * Real.logb 10 ((6.9 : ℝ) / 4000) :=
    mul_pos_of_neg_of_neg (by norm_num) hlb_neg
  constructor
  · exact friction_factor_haaland_ok 4000 1 0 (by norm_num) (by norm_num)
      le_rfl (by rw [hterm0]; exact ne_of_lt hlb_neg)
  · rw [hterm0, lt_div_iff₀ (pow_pos hinv_pos 2)]
    nlinarith [mul_pos
      (show (0 : ℝ) < Real.logb 10 ((6.9 : ℝ) / 4000) + 3 by linarith)
      (show (0 : ℝ) < -Real.logb 10 ((6.9 : ℝ) / 4000) by linarith)]

/-- By the intermediate value theorem there is a valid roughness (on a unit
diameter) at which the Haaland value at `Re = 4000` equals the laminar
value `64/3000` exactly: the log argument, continuous and growing without
bound in the roughness, crosses `10^(√(3000/64)/1.8)`. -/
lemma haaland_crosses_laminar :
    ∃ eps, 0 ≤ eps ∧ friction_factor_haaland 4000 1 eps = .ok (64 / 3000) := by
  set c : ℝ := Real.sqrt (3000 / 64) / 1.8 with hc
  have hc_pos : 0 < c := by
    rw [hc]
    positivity
  have hc_lt : c < 4 := by
    rw [hc, div_lt_iff₀ (by norm_num : (0 : ℝ) < 1.8),
      Real.sqrt_lt' (by norm_num : (0 : ℝ) < 4 * 1.8)]
    norm_num
  have hc2 : c ^ 2 = 3000 / 64 / 1.8 ^ 2 := by
    rw [hc, div_pow, Real.sq_sqrt (by norm_num : (0 : ℝ) ≤ 3000 / 64)]
  have hcont : ContinuousOn
      (fun t : ℝ => ((t / 1) / 3.7) ^ (1.11 : ℝ) + 6.9 / 4000)
      (Set.Icc 0 1000000) := by
    refine ContinuousOn.add ?_ continuousOn_const
    refine ContinuousOn.rpow_const ?_ (fun x _ => Or.inr (by norm_num))
    exact ((continuous_id.div_const 1).div_const 3.7).continuousOn
  have h1 : (fun t : ℝ => ((t / 1) / 3.7) ^ (1.11 : ℝ) + 6.9 / 4000) 0 ≤
      (10 : ℝ) ^ c := by
    show ((0 / 1 : ℝ) / 3.7) ^ (1.11 : ℝ) + 6.9 / 4000 ≤ (10 : ℝ) ^ c
    rw [show ((0 : ℝ) / 1) / 3.7 = 0 by norm_num,
      Real.zero_rpow (by norm_num : (1.11 : ℝ) ≠ 0)]
    have hone : (1 : ℝ) ≤ 10 ^ c := by
      calc (1 : ℝ) = (10 : ℝ) ^ (0 : ℝ) := (Real.rpow_zero 10).symm
      _ ≤ (10 : ℝ) ^ c :=
        Real.rpow_le_rpow_of_exponent_le (by norm_num) hc_pos.le
    linarith
  have h2 : (10 : ℝ) ^ c ≤
      (fun t : ℝ => ((t / 1) / 3.7) ^ (1.11 : ℝ) + 6.9 / 4000) 1000000 := by
    show (10 : ℝ) ^ c ≤ ((1000000 / 1 : ℝ) / 3.7) ^ (1.11 : ℝ) + 6.9 / 4000
    have ha : (10 : ℝ) ^ c ≤ 10 ^ (4 : ℝ) :=
      Real.rpow_le_rpow_of_exponent_le (by norm_num) hc_lt.le
    have hb : (10 : ℝ) ^ (4 : ℝ) = 10000 := by
      rw [show (4 : ℝ) = ((4 : ℕ) : ℝ) by norm_num, Real.rpow_natCast]
      norm_num
    have hgrow : ((1000000 / 1 : ℝ) / 3.7) ≤
        ((1000000 / 1 : ℝ) / 3.7) ^ (1.11 : ℝ) := by
      calc ((1000000 / 1 : ℝ) / 3.7) =
          ((1000000 / 1 : ℝ) / 3.7) ^ (1 : ℝ) := (Real.rpow_one _).symm
      _ ≤ ((1000000 / 1 : ℝ) / 3.7) ^ (1.11 : ℝ) :=
        Real.rpow_le_rpow_of_exponent_le (by norm_num) (by norm_num)
    have hbig : (10000 : ℝ) ≤ (1000000 / 1 : ℝ) / 3.7 := by norm_num
    linarith
  obtain ⟨eps, hmem, hfeq⟩ :=
    intermediate_value_Icc (by norm_num : (0 : ℝ) ≤ 1000000) hcont
      (Set.mem_Icc.mpr ⟨h1, h2⟩)
  simp only [] at hfeq
  have hlb : Real.logb 10
      (((eps / 1) / 3.7) ^ (1.11 : ℝ) + 6.9 / 4000) ≠ 0 := by
    rw [hfeq, Real.logb_rpow (by norm_num) (by norm_num)]
    exact ne_of_gt hc_pos
  have h := friction_factor_haaland_ok 4000 1 eps (by norm_num)
    (by norm_num) hmem.1 hlb
  refine ⟨eps, hmem.1, ?_⟩
  rw [h, Except.ok.injEq, hfeq,
    Real.logb_rpow (by norm_num) (by norm_num), mul_pow, hc2]
  norm_num

/-- C6 (amended): on a valid segment whose derived Reynolds number is 3000,
`compute_single_segment_head_loss` with the Haaland method succeeds and
reports the regime label `"transicional"` (the source's literal string);
and whenever the Haaland endpoint value `fh` at `Re = 4000` differs from
the laminar value `64/3000`, its friction factor lies strictly between
those two values. -/
theorem c6_transitional_scenario (q rho mu g L D eps : ℝ) (n : String)
    (fh : ℝ) (hq : 0 < q) (hrho : 0 < rho) (hmu : 0 < mu) (hg : 0 < g)
    (hL : 0 < L) (hD : 0 < D) (heps : 0 ≤ eps)
    (hre : rho * (q / compute_area D) * D / mu = 3000)
    (hfh : friction_factor_haaland 4000 D eps = .ok fh)
    (hne : fh ≠ 64 / 3000) :
    ∃ r, compute_single_segment_head_loss q ⟨L, D, eps, n⟩ rho mu g
        "haaland" = .ok r ∧
      r.regime = "transicional" ∧
      ((64 / 3000 < r.friction_factor ∧ r.friction_factor < fh) ∨
        (fh < r.friction_factor ∧ r.friction_factor < 64 / 3000)) := by
  obtain ⟨r, hr, hreg, hfv⟩ := compute_single_transitional_3000 q rho mu g
    L D eps n fh hq hrho hmu hg hD hre hfh
  refine ⟨r, hr, hreg, ?_⟩
  rw [hfv]
  rcases lt_or_gt_of_ne hne with hlt | hgt
  · right
    constructor <;> nlinarith
  · left
    constructor <;> nlinarith

/-- The concrete Haaland endpoint value of the C6 witness scenario
(`D = 1`, `ε = 0`). -/
noncomputable def c6_witness_fh : ℝ :=
  1 / (-1.8 * Real.logb 10 ((((0 : ℝ) / 1) / 3.7) ^ (1.11 : ℝ) +
    6.9 / 4000)) ^ 2

/-- Witness for C6: `q = 750π`, unit segment and fluid constants, smooth
pipe; the derived Reynolds number is exactly 3000 and the endpoint value
differs from `64/3000`. -/
theorem c6_transitional_scenario_witness :
    friction_factor_haaland 4000 1 0 = .ok c6_witness_fh ∧
    c6_witness_fh ≠ 64 / 3000 ∧
    ∃ r, compute_single_segment_head_loss (750 * Real.pi) ⟨1, 1, 0, ""⟩
        1 1 1 "haaland" = .ok r ∧
      r.regime = "transicional" ∧
      ((64 / 3000 < r.friction_factor ∧ r.friction_factor < c6_witness_fh) ∨
        (c6_witness_fh < r.friction_factor ∧
          r.friction_factor < 64 / 3000)) := by
  have h := haaland_unit_smooth_value
  have hne : c6_witness_fh ≠ 64 / 3000 := ne_of_gt h.2
  have hre : (1 : ℝ) * (750 * Real.pi / compute_area 1) * 1 / 1 = 3000 := by
    have hpi : Real.pi ≠ 0 := Real.pi_ne_zero
    unfold compute_area
    field_simp
    ring
  exact ⟨h.1, hne, c6_transitional_scenario (750 * Real.pi) 1 1 1 1 1 0 ""
    c6_witness_fh (by positivity) one_pos one_pos one_pos one_pos one_pos
    le_rfl hre h.1 hne⟩

/-- Counterexample for C6 as stated, refuting both of its conjuncts: at the
concrete transitional input the returned regime string is the source's
`"transicional"`, not the claimed `"transitional"`; and there is a valid
roughness — the crossing point where the Haaland endpoint at `Re = 4000`
equals `64/3000` — at which the friction factor coincides with both
endpoint values, hence is not strictly between them. -/
theorem c6_counterexample :
    Except.map (fun r => r.regime)
      (compute_single_segment_head_loss (750 * Real.pi) ⟨1, 1, 0, ""⟩
        1 1 1 "haaland") = .ok "transicional" ∧
    "transicional" ≠ "transitional" ∧
    ∃ eps r, 0 ≤ eps ∧
      compute_single_segment_head_loss (750 * Real.pi) ⟨1, 1, eps, ""⟩
        1 1 1 "haaland" = .ok r ∧
      friction_factor_haaland 4000 1 eps = .ok (64 / 3000) ∧
      r.friction_factor = 64 / 3000 ∧
      ¬(64 / 3000 < r.friction_factor ∧ r.friction_factor < 64 / 3000) := by
  have hre : (1 : ℝ) * (750 * Real.pi / compute_area 1) * 1 / 1 = 3000 := by
    have hpi : Real.pi ≠ 0 := Real.pi_ne_zero
    unfold compute_area
    field_simp
    ring
  refine ⟨?_, by decide, ?_⟩
  · obtain ⟨r0, hr0, hreg0, _⟩ := compute_single_transitional_3000
      (750 * Real.pi) 1 1 1 1 1 0 "" _ (by positivity) one_pos one_pos
      one_pos one_pos hre haaland_unit_smooth_value.1
    rw [hr0]
    show Except.ok r0.regime = Except.ok "transicional"
    rw [hreg0]
  · obtain ⟨eps, heps, hfh64⟩ := haaland_crosses_laminar
    obtain ⟨r, hr, hreg, hfv⟩ := compute_single_transitional_3000
      (750 * Real.pi) 1 1 1 1 1 eps "" (64 / 3000) (by positivity) one_pos
      one_pos one_pos one_pos hre hfh64
    have hfeq : r.friction_factor = 64 / 3000 := by
      rw [hfv]
      norm_num
    refine ⟨eps, r, heps, hr, hfh64, hfeq, ?_⟩
    rintro ⟨hlt, -⟩
    rw [hfeq] at hlt
    exact lt_irrefl _ hlt
